import Mathlib

/-!
Shallow embedding of the weather-search / favorites subsystem of the
Weather-application repository (Express + Prisma backend).

The relational store (Prisma models `User`, `City`, `FavoriteCity`,
`WeatherSearch` of prisma/schema.prisma) is modelled as lists of rows plus
autoincrement counters.  The external weather provider
(`axios.get(WEATHER_URL, {params: {q, aqi}})`) is modelled as a function from
the query string to an optional response; `none` models a failed HTTP call.
Coordinates are floats in the source but no arithmetic is ever performed on
them (only equality filters and pass-through), so they are modelled as `Int`.
Timestamps (`new Date()` / Prisma `DateTime`) are modelled as `Nat`.

JavaScript truthiness matters in several guards (`!query.q`,
`!name && !latitude && !longitude`): absent values are modelled as `none`
and the falsiness of the empty string and of `0` / `NaN` is made explicit.

Each operation returns its result together with the updated store, and the
weather-search path also returns the list of provider query strings it
issued, so that "no provider call" and "one call per city, in order" are
provable statements.
-/

namespace Weather

/-- Row of the Prisma `User` model. -/
structure UserRow where
  id : Nat
  email : String
  password : String
  country : String
  state : String
  city : String
  latitude : Int
  longitude : Int
deriving DecidableEq

/-- Row of the Prisma `City` model (no uniqueness constraint on `name`). -/
structure CityRow where
  id : Nat
  name : String
  latitude : Int
  longitude : Int
deriving DecidableEq

/-- Row of the Prisma `FavoriteCity` model. -/
structure FavoriteRow where
  id : Nat
  userId : Nat
  cityId : Nat
deriving DecidableEq

/-- Row of the Prisma `WeatherSearch` model. -/
structure SearchRow where
  id : Nat
  userId : Nat
  cityId : Nat
  timestamp : Nat
deriving DecidableEq

/-- The relational store: the four tables plus autoincrement counters. -/
structure DB where
  users : List UserRow
  cities : List CityRow
  favorites : List FavoriteRow
  searches : List SearchRow
  nextCityId : Nat
  nextFavoriteId : Nat
  nextSearchId : Nat
deriving DecidableEq

/-- The weather provider's response.  The service only ever reads
`location.name`, `location.lat`, `location.lon`; the rest of the payload is
passed through opaquely and is modelled by a single field. -/
structure WeatherResponse where
  locName : String
  locLat : Int
  locLon : Int
  payload : Nat
deriving DecidableEq

/-- The external provider: query string to optional response
(`none` models a failed HTTP call). -/
abbrev Provider := String → Option WeatherResponse

/-- The distinguishable throw sites of the service layer
(weatherService.ts / userService.ts error messages). -/
inductive WErr where
  /-- `Either "q" (city name) or "lat" and "lon" ... must be provided` and
  `City information is required.` -/
  | invalidInput
  /-- a failed axios call to the weather provider -/
  | providerError
  /-- `User not found` -/
  | userNotFound
  /-- `City already exists in favorites.` -/
  | alreadyFavorited
  /-- `City not found` -/
  | cityNotFound
  /-- `City information is missing.` -/
  | cityInfoMissing
deriving DecidableEq

/-- The `query` object of `WeatherService.searchWeather`
(`{ q?: string, lat?: number, lon?: number }`). -/
structure Query where
  q : Option String
  lat : Option Int
  lon : Option Int
deriving DecidableEq

/-- JavaScript falsiness of the optional string `query.q`:
`undefined` and the empty string are falsy. -/
def qFalsy : Option String → Bool
  | none => true
  | some s => s == ""

/-- The provider query string: `query.q ? {q: query.q} : {q: `lat,lon`}`. -/
def providerQuery (query : Query) : String :=
  if qFalsy query.q then
    toString (query.lat.getD 0) ++ "," ++ toString (query.lon.getD 0)
  else
    query.q.getD ""

/-- The city find-or-create step of `searchWeather` (part_002 lines 97-117):
find by name when `query.q` is truthy, else by the coordinate pair; when no
row matches, create one from the provider response's canonical
`location.name` / `location.lat` / `location.lon`.  Returns the resolved
city id and the updated store.  (The `+query.lat` numeric coercion of the
source is a no-op here since coordinates are already numbers.) -/
def resolveCityForSearch (db : DB) (query : Query) (resp : WeatherResponse) :
    Nat × DB :=
  let found :=
    if qFalsy query.q then
      db.cities.find? (fun c => query.lat == some c.latitude && query.lon == some c.longitude)
    else
      match query.q with
      | some s => db.cities.find? (fun c => c.name == s)
      | none => db.cities.head?
  match found with
  | some city => (city.id, db)
  | none =>
      (db.nextCityId,
       { db with
           cities := db.cities ++ [⟨db.nextCityId, resp.locName, resp.locLat, resp.locLon⟩],
           nextCityId := db.nextCityId + 1 })

/-- The search-history upsert of `searchWeather` (part_002 lines 119-143):
find the `WeatherSearch` row for `(userId, cityId)`; update its timestamp if
present, insert a fresh row otherwise. -/
def recordSearchUpsert (db : DB) (userId cityId now : Nat) : DB :=
  match db.searches.find? (fun r => r.userId == userId && r.cityId == cityId) with
  | some existing =>
      { db with
          searches := db.searches.map
            (fun r => if r.id == existing.id then { r with timestamp := now } else r) }
  | none =>
      { db with
          searches := db.searches ++ [⟨db.nextSearchId, userId, cityId, now⟩],
          nextSearchId := db.nextSearchId + 1 }

/-- `WeatherService.searchWeather` (part_002 lines 60-152).  Returns the
result, the updated store, and the provider query strings issued. -/
def searchWeather (provider : Provider) (db : DB) (query : Query) (userId : Nat)
    (addToRecentSearch : Bool) (now : Nat) :
    Except WErr WeatherResponse × DB × List String :=
  if qFalsy query.q && (query.lat == none || query.lon == none) then
    (.error .invalidInput, db, [])
  else
    let pq := providerQuery query
    match provider pq with
    | none => (.error .providerError, db, [pq])
    | some resp =>
        if addToRecentSearch then
          let rc := resolveCityForSearch db query resp
          (.ok resp, recordSearchUpsert rc.2 userId rc.1 now, [pq])
        else
          (.ok resp, db, [pq])

/-- The city descriptor handed to `addToFavorites`.  The TypeScript `City`
type declares all fields required, but at runtime the controller builds it
from the request body, so each field may be `undefined` (`none`). -/
structure CityInput where
  name : Option String
  latitude : Option Int
  longitude : Option Int
deriving DecidableEq

/-- `prisma.city.findFirst({where: {name: city.name}})`: when `city.name` is
`undefined`, Prisma drops the filter, so `findFirst` returns the first row
of the whole `City` table. -/
def findCityByName (db : DB) (name : Option String) : Option CityRow :=
  match name with
  | some n => db.cities.find? (fun c => c.name == n)
  | none => db.cities.head?

/-- The favorite-existence check and insert of `addToFavorites` (part_002
lines 186-209), after the `existingCity` lookup.  Two quirks taken verbatim
from the source: the lookup filter `cityId: existingCity?.id` is dropped by
the ORM when `existingCity` is `undefined` (the `none => true` arm); and
the `!existingCity` branch throws `City not found` (despite the comment
above it in the source announcing creation). -/
def addFavoriteForResolved : DB → Option CityRow → Nat → Except WErr Unit × DB :=
  fun db existingCity userId =>
  match db.favorites.find? (fun f =>
      f.userId == userId &&
        match existingCity with
        | some ec => f.cityId == ec.id
        | none => true) with
  | some _ => (.error .alreadyFavorited, db)
  | none =>
      match existingCity with
      | none => (.error .cityNotFound, db)
      | some ec =>
          (.ok (),
           { db with
               favorites := db.favorites ++ [⟨db.nextFavoriteId, userId, ec.id⟩],
               nextFavoriteId := db.nextFavoriteId + 1 })

/-- `WeatherService.addToFavorites` (part_002 lines 162-213): user existence
check, `!city` check, name-based city lookup, then the favorite-existence
check and insert. -/
def addToFavorites (db : DB) (city : Option CityInput) (userId : Nat) :
    Except WErr Unit × DB :=
  match db.users.find? (fun u => u.id == userId) with
  | none => (.error .userNotFound, db)
  | some _ =>
      match city with
      | none => (.error .invalidInput, db)
      | some ci => addFavoriteForResolved db (findCityByName db ci.name) userId

/-- JavaScript falsiness of `Number(x)` for an optional numeric field:
`Number(undefined)` is `NaN` (falsy) and `0` is falsy. -/
def numFalsy : Option Int → Bool
  | none => true
  | some v => v == 0

/-- The `addToFavorites` controller (weatherController.ts lines 86-117):
coerces latitude/longitude with `Number`, rejects only when name, latitude
and longitude are all falsy, then calls the service with
`{ name, latitude, longitude }`. -/
def addToFavoritesController (db : DB) (name : Option String)
    (latitude longitude : Option Int) (userId : Nat) : Except WErr Unit × DB :=
  if qFalsy name && numFalsy latitude && numFalsy longitude then
    (.error .invalidInput, db)
  else
    addToFavorites db (some ⟨name, latitude, longitude⟩) userId

/-- The `city: { name, latitude, longitude }` relation data selected by the
favorites / recent-searches queries. -/
structure CityData where
  name : String
  latitude : Int
  longitude : Int
deriving DecidableEq

/-- Element of the list returned by `getFavoriteCities` (`FavoriteCity`
response type). -/
structure FavoriteCityView where
  id : Nat
  cityId : Nat
  city : CityData
deriving DecidableEq

/-- Element of the list returned by `getRecentSearches` (`RecentSearch`
response type). -/
structure RecentSearchView where
  id : Nat
  cityId : Nat
  city : CityData
deriving DecidableEq

/-- The `.map` body shared by `getFavoriteCities`: join each favorite with
its `City` row, throwing `City information is missing.` when the relation
is absent. -/
def favoriteViews (db : DB) : List FavoriteRow → Except WErr (List FavoriteCityView)
  | [] => .ok []
  | f :: fs =>
      match db.cities.find? (fun c => c.id == f.cityId) with
      | none => .error .cityInfoMissing
      | some ct =>
          match favoriteViews db fs with
          | .error e => .error e
          | .ok rest => .ok (⟨f.id, f.cityId, ⟨ct.name, ct.latitude, ct.longitude⟩⟩ :: rest)

/-- `WeatherService.getFavoriteCities` (part_002 lines 221-262):
`findMany({where: {userId}})` joined with the city relation. -/
def getFavoriteCities (db : DB) (userId : Nat) : Except WErr (List FavoriteCityView) :=
  favoriteViews db (db.favorites.filter (fun f => f.userId == userId))

/-- Stable insertion into a timestamp-descending list: the new element goes
before the first element whose timestamp is not strictly larger. -/
def insertByTimestampDesc (x : SearchRow) : List SearchRow → List SearchRow
  | [] => [x]
  | y :: ys =>
      if x.timestamp < y.timestamp then y :: insertByTimestampDesc x ys
      else x :: y :: ys

/-- Stable sort of `WeatherSearch` rows by timestamp, descending — the model
of Prisma's `orderBy: { timestamp: 'desc' }`. -/
def sortByTimestampDesc : List SearchRow → List SearchRow
  | [] => []
  | x :: xs => insertByTimestampDesc x (sortByTimestampDesc xs)

/-- The rows selected by `getRecentSearches` before the join:
`findMany({where: {userId}, orderBy: {timestamp: 'desc'}, take: 5})`. -/
def recentRows (db : DB) (userId : Nat) : List SearchRow :=
  (sortByTimestampDesc (db.searches.filter (fun r => r.userId == userId))).take 5

/-- The `.map` body of `getRecentSearches`: join each search row with its
`City` row, throwing `City information is missing.` when absent. -/
def searchViews (db : DB) : List SearchRow → Except WErr (List RecentSearchView)
  | [] => .ok []
  | r :: rs =>
      match db.cities.find? (fun c => c.id == r.cityId) with
      | none => .error .cityInfoMissing
      | some ct =>
          match searchViews db rs with
          | .error e => .error e
          | .ok rest => .ok (⟨r.id, r.cityId, ⟨ct.name, ct.latitude, ct.longitude⟩⟩ :: rest)

/-- `WeatherService.getRecentSearches` (part_002 lines 304-349). -/
def getRecentSearches (db : DB) (userId : Nat) : Except WErr (List RecentSearchView) :=
  searchViews db (recentRows db userId)

/-- The sequential fan-out loop shared by `getFavoriteCitiesWeather` and
`getRecentSearchesWeather`: for each city name, in order, call
`searchWeather({q: name}, userId, false)`; the first failure aborts the
whole loop.  Returns the result, the threaded store and the concatenated
provider-call trace. -/
def weatherFanOut (provider : Provider) (userId : Nat) :
    DB → List String → Except WErr (List WeatherResponse) × DB × List String
  | db, [] => (.ok [], db, [])
  | db, name :: rest =>
      match searchWeather provider db ⟨some name, none, none⟩ userId false 0 with
      | (.error e, db1, tr) => (.error e, db1, tr)
      | (.ok w, db1, tr) =>
          match weatherFanOut provider userId db1 rest with
          | (.error e, db2, tr2) => (.error e, db2, tr ++ tr2)
          | (.ok ws, db2, tr2) => (.ok (w :: ws), db2, tr ++ tr2)

/-- `WeatherService.getFavoriteCitiesWeather` (part_002 lines 270-296). -/
def getFavoriteCitiesWeather (provider : Provider) (db : DB) (userId : Nat) :
    Except WErr (List WeatherResponse) × DB × List String :=
  match getFavoriteCities db userId with
  | .error e => (.error e, db, [])
  | .ok favs => weatherFanOut provider userId db (favs.map (fun f => f.city.name))

/-- `WeatherService.getRecentSearchesWeather` (part_002 lines 357-383). -/
def getRecentSearchesWeather (provider : Provider) (db : DB) (userId : Nat) :
    Except WErr (List WeatherResponse) × DB × List String :=
  match getRecentSearches db userId with
  | .error e => (.error e, db, [])
  | .ok recents => weatherFanOut provider userId db (recents.map (fun r => r.city.name))

/-- The user record returned by `UserService.getUserProfile` after
`delete user.password`: every `User` column except the password. -/
structure UserProfile where
  id : Nat
  email : String
  country : String
  state : String
  city : String
  latitude : Int
  longitude : Int
deriving DecidableEq

/-- The `delete user.password` projection: every column of the row except
the password. -/
def profileOf (u : UserRow) : UserProfile :=
  ⟨u.id, u.email, u.country, u.state, u.city, u.latitude, u.longitude⟩

/-- `UserService.getUserProfile` (userService.ts lines 82-94): find the user
by id, throw `User not found.` when absent, and return the record with the
password field deleted. -/
def getUserProfile (db : DB) (userId : Nat) : Except WErr UserProfile :=
  match db.users.find? (fun u => u.id == userId) with
  | none => .error .userNotFound
  | some u => .ok (profileOf u)

/-- Number of `WeatherSearch` rows for a `(userId, cityId)` pair. -/
def pairCount (db : DB) (u c : Nat) : Nat :=
  db.searches.countP (fun r => r.userId == u && r.cityId == c)

/-- The id a name-based resolve in `db` yields: the first `City` row with
that name, or the id the created row would get. -/
def resolvedCityId (db : DB) (name : String) : Nat :=
  match db.cities.find? (fun c => c.name == name) with
  | some ct => ct.id
  | none => db.nextCityId

/-- A sequence of history-recording searches for the same name-query:
`searchWeather({q: name}, u, true)` once per timestamp in `ts`, threading
the store. -/
def recordSequence (provider : Provider) (u : Nat) (name : String) :
    DB → List Nat → DB
  | db, [] => db
  | db, now :: rest =>
      recordSequence provider u name
        (searchWeather provider db ⟨some name, none, none⟩ u true now).2.1 rest

/-- Agreement of two user rows on every column except the password hash. -/
def samePublic (a b : UserRow) : Prop :=
  a.id = b.id ∧ a.email = b.email ∧ a.country = b.country ∧ a.state = b.state ∧
    a.city = b.city ∧ a.latitude = b.latitude ∧ a.longitude = b.longitude

/-- The join relation realised by `getRecentSearches`: the view entry
carries the search row's id and cityId together with the matching `City`
row's name and coordinates. -/
def joinedWithCity (db : DB) (r : SearchRow) (e : RecentSearchView) : Prop :=
  e.id = r.id ∧ e.cityId = r.cityId ∧
    ∃ ct, db.cities.find? (fun c => c.id == r.cityId) = some ct ∧
      e.city = ⟨ct.name, ct.latitude, ct.longitude⟩

/-! Concrete sample data used by the witness and counterexample theorems. -/

/-- A registered user. -/
def sampleUser : UserRow := ⟨1, "ada@mail.test", "hash1", "NP", "Gandaki", "Pokhara", 28, 83⟩

/-- The same user with a different stored password hash. -/
def sampleUserAltPw : UserRow := ⟨1, "ada@mail.test", "hash2", "NP", "Gandaki", "Pokhara", 28, 83⟩

/-- A `City` row named Paris. -/
def parisCity : CityRow := ⟨0, "Paris", 48, 2⟩

/-- A `City` row named Kathmandu. -/
def ktmCity : CityRow := ⟨0, "Kathmandu", 27, 85⟩

/-- A canned provider response whose canonical location is Kathmandu. -/
def ktmResp : WeatherResponse := ⟨"Kathmandu", 27, 85, 9⟩

/-- A provider that answers only the query "Kathmandu". -/
def sampleProvider : Provider :=
  fun s => if s == "Kathmandu" then some ktmResp else none

/-- Store with the sample user and an empty `City` table. -/
def dbNoCity : DB := ⟨[sampleUser], [], [], [], 0, 0, 0⟩

/-- Same store but the user row carries the other password hash. -/
def dbNoCityAltPw : DB := ⟨[sampleUserAltPw], [], [], [], 0, 0, 0⟩

/-- Store with the sample user and the Paris city row. -/
def dbParis : DB := ⟨[sampleUser], [parisCity], [], [], 1, 0, 0⟩

/-- Store where the sample user already has Paris as a favorite. -/
def dbParisFav : DB := ⟨[sampleUser], [parisCity], [⟨0, 1, 0⟩], [], 1, 1, 0⟩

/-- Store where the sample user has Kathmandu as a favorite and one
recorded Kathmandu search. -/
def dbKtmFav : DB := ⟨[sampleUser], [ktmCity], [⟨0, 1, 0⟩], [⟨0, 1, 0, 4⟩], 1, 1, 1⟩

/-- Store with two searches of the same user carrying equal timestamps. -/
def dbTie : DB :=
  ⟨[sampleUser], [⟨1, "A", 10, 20⟩, ⟨2, "B", 30, 40⟩], [],
    [⟨1, 1, 1, 10⟩, ⟨2, 1, 2, 10⟩], 3, 0, 3⟩

/-! General helper lemmas. -/

/-- If nothing in the left list matches, `find?` over the concatenation
searches the right list. -/
theorem find?_append_left_none {α : Type} {p : α → Bool} {l₁ : List α} (l₂ : List α)
    (h : l₁.find? p = none) : (l₁ ++ l₂).find? p = l₂.find? p := by
  rw [List.find?_append, h, Option.none_or]

/-- A list whose `countP` is at most one has at most one member satisfying
the predicate. -/
theorem eq_of_countP_le_one {α : Type} {p : α → Bool} :
    ∀ {l : List α}, l.countP p ≤ 1 →
      ∀ {x y : α}, x ∈ l → y ∈ l → p x = true → p y = true → x = y := by
  intro l
  induction l with
  | nil => intro _ x y hx; cases hx
  | cons a t ih =>
      intro hc x y hx hy hpx hpy
      rw [List.countP_cons] at hc
      have htz : p a = true → t.countP p = 0 := by
        intro hpa
        rw [if_pos hpa] at hc
        omega
      rcases List.mem_cons.mp hx with rfl | hxt
      · rcases List.mem_cons.mp hy with rfl | hyt
        · rfl
        · exact absurd hpy (List.countP_eq_zero.mp (htz hpx) y hyt)
      · rcases List.mem_cons.mp hy with rfl | hyt
        · exact absurd hpx (List.countP_eq_zero.mp (htz hpy) x hxt)
        · have : t.countP p ≤ 1 := by
            by_cases hpa : p a = true
            · rw [if_pos hpa] at hc; omega
            · rw [if_neg hpa] at hc; omega
          exact ih this hxt hyt hpx hpy

/-! Claim C6. -/

/-- Claim C6: a `searchWeather` call whose query has no city name (absent
or empty `q`) and lacks the latitude or the longitude fails with the
InvalidInput error before any provider call is issued (empty call trace)
and leaves the whole store, in particular the City and WeatherSearch
tables, unchanged. -/
theorem searchWeather_missing_query_fails_fast
    (provider : Provider) (db : DB) (query : Query) (userId : Nat)
    (addToRecentSearch : Bool) (now : Nat)
    (hq : query.q = none ∨ query.q = some "")
    (hc : query.lat = none ∨ query.lon = none) :
    searchWeather provider db query userId addToRecentSearch now =
      (.error .invalidInput, db, []) := by
  have h1 : qFalsy query.q = true := by
    rcases hq with h | h <;> simp [qFalsy, h]
  have h2 : (query.lat == none || query.lon == none) = true := by
    rcases hc with h | h <;> simp [h]
  simp [searchWeather, h1, h2]

/-- Witness for C6 at a concrete query carrying only a latitude. -/
theorem searchWeather_missing_query_fails_fast_witness :
    searchWeather sampleProvider dbNoCity ⟨none, some 3, none⟩ 1 true 5 =
      (.error .invalidInput, dbNoCity, []) :=
  searchWeather_missing_query_fails_fast sampleProvider dbNoCity
    ⟨none, some 3, none⟩ 1 true 5 (Or.inl rfl) (Or.inr rfl)

/-! Claim C4. -/

/-- Claim C4 (code bug): with the user present, a well-formed descriptor
(non-empty name and both coordinates) and no `City` row named "Pokhara",
`addToFavorites` fails with the `City not found` error and inserts nothing,
although the comment in the source and the specification say the city is to
be created and the favorite inserted. -/
theorem addToFavorites_missing_city_is_error :
    addToFavorites dbNoCity (some ⟨some "Pokhara", some 28, some 83⟩) 1 =
      (.error .cityNotFound, dbNoCity) := rfl

/-! Claim C9. -/

/-- Claim C9: when the caller exists and already has at least one favorite
row, and the descriptor's name matches no `City` row, the favorite lookup's
`cityId: existingCity?.id` filter is dropped, so it matches any favorite of
the user and the call fails with AlreadyFavorited instead of a
city-not-found error. -/
theorem addToFavorites_unknown_city_reports_already_favorited
    (db : DB) (ci : CityInput) (userId : Nat) (n : String)
    (husr : (db.users.find? (fun u => u.id == userId)).isSome = true)
    (hname : ci.name = some n)
    (hcity : db.cities.find? (fun c => c.name == n) = none)
    (hfav : ∃ f ∈ db.favorites, f.userId = userId) :
    addToFavorites db (some ci) userId = (.error .alreadyFavorited, db) := by
  obtain ⟨u, hu⟩ := Option.isSome_iff_exists.mp husr
  have hec : findCityByName db ci.name = none := by
    rw [hname]; exact hcity
  obtain ⟨f, hfmem, hfu⟩ := hfav
  unfold addToFavorites
  rw [hu]
  show addFavoriteForResolved db (findCityByName db ci.name) userId = _
  rw [hec]
  unfold addFavoriteForResolved
  split
  · rfl
  · rename_i hE
    exact absurd (by simp [hfu]) (List.find?_eq_none.mp hE f hfmem)

/-- Witness for C9: the user has Paris favorited; asking to favorite the
unknown "Atlantis" is rejected as AlreadyFavorited. -/
theorem addToFavorites_unknown_city_already_favorited_witness :
    addToFavorites dbParisFav (some ⟨some "Atlantis", some 1, some 2⟩) 1 =
      (.error .alreadyFavorited, dbParisFav) :=
  addToFavorites_unknown_city_reports_already_favorited dbParisFav
    ⟨some "Atlantis", some 1, some 2⟩ 1 "Atlantis" rfl rfl rfl
    ⟨⟨0, 1, 0⟩, by simp [dbParisFav], rfl⟩

/-! Claim C2. -/

/-- Reduction of `addToFavorites` once the user lookup has succeeded. -/
theorem addToFavorites_resolved_eq
    (db : DB) (ci : CityInput) (userId : Nat) (u : UserRow)
    (hu : db.users.find? (fun v => v.id == userId) = some u) :
    addToFavorites db (some ci) userId =
      addFavoriteForResolved db (findCityByName db ci.name) userId := by
  unfold addToFavorites
  rw [hu]

/-- Reduction of `addFavoriteForResolved` when the city row was found. -/
theorem addFavoriteForResolved_some (db : DB) (ct : CityRow) (userId : Nat) :
    addFavoriteForResolved db (some ct) userId =
      match db.favorites.find? (fun f => f.userId == userId && f.cityId == ct.id) with
      | some _ => (.error .alreadyFavorited, db)
      | none =>
          (.ok (),
           { db with
               favorites := db.favorites ++ [⟨db.nextFavoriteId, userId, ct.id⟩],
               nextFavoriteId := db.nextFavoriteId + 1 }) := rfl

/-- `addFavoriteForResolved` rejects when a favorite row already matches. -/
theorem addFavoriteForResolved_found (db : DB) (ct : CityRow) (userId : Nat)
    (g : FavoriteRow)
    (h : db.favorites.find? (fun f => f.userId == userId && f.cityId == ct.id) = some g) :
    addFavoriteForResolved db (some ct) userId = (.error .alreadyFavorited, db) := by
  rw [addFavoriteForResolved_some, h]

/-- `addFavoriteForResolved` inserts when no favorite row matches. -/
theorem addFavoriteForResolved_insert (db : DB) (ct : CityRow) (userId : Nat)
    (h : db.favorites.find? (fun f => f.userId == userId && f.cityId == ct.id) = none) :
    addFavoriteForResolved db (some ct) userId =
      (.ok (),
       { db with
           favorites := db.favorites ++ [⟨db.nextFavoriteId, userId, ct.id⟩],
           nextFavoriteId := db.nextFavoriteId + 1 }) := by
  rw [addFavoriteForResolved_some, h]

/-- Claim C2: when the user exists, the descriptor's name resolves to a
`City` row `ct`, and the user does not yet have `ct` favorited, the first
`addToFavorites` call succeeds and the second fails with AlreadyFavorited,
leaving exactly one `FavoriteCity` row for the pair. -/
theorem addToFavorites_duplicate_rejected
    (db : DB) (ci : CityInput) (userId : Nat) (n : String) (ct : CityRow)
    (husr : (db.users.find? (fun v => v.id == userId)).isSome = true)
    (hname : ci.name = some n)
    (hcity : db.cities.find? (fun c => c.name == n) = some ct)
    (hfav : db.favorites.find? (fun f => f.userId == userId && f.cityId == ct.id) = none) :
    ∃ db1 : DB,
      addToFavorites db (some ci) userId = (.ok (), db1) ∧
      addToFavorites db1 (some ci) userId = (.error .alreadyFavorited, db1) ∧
      db1.favorites.countP (fun f => f.userId == userId && f.cityId == ct.id) = 1 := by
  obtain ⟨u, hu⟩ := Option.isSome_iff_exists.mp husr
  have hec : findCityByName db ci.name = some ct := by rw [hname]; exact hcity
  have hfind1 : List.find? (fun f => f.userId == userId && f.cityId == ct.id)
      (db.favorites ++ [FavoriteRow.mk db.nextFavoriteId userId ct.id]) =
        some (FavoriteRow.mk db.nextFavoriteId userId ct.id) := by
    rw [find?_append_left_none _ hfav]
    simp
  refine ⟨{ db with
              favorites := db.favorites ++ [⟨db.nextFavoriteId, userId, ct.id⟩],
              nextFavoriteId := db.nextFavoriteId + 1 }, ?_, ?_, ?_⟩
  · rw [addToFavorites_resolved_eq db ci userId u hu, hec]
    exact addFavoriteForResolved_insert db ct userId hfav
  · have hu1 : ({ db with
        favorites := db.favorites ++ [⟨db.nextFavoriteId, userId, ct.id⟩],
        nextFavoriteId := db.nextFavoriteId + 1 } : DB).users.find?
          (fun v => v.id == userId) = some u := hu
    rw [addToFavorites_resolved_eq _ ci userId u hu1]
    have hec1 : findCityByName { db with
        favorites := db.favorites ++ [⟨db.nextFavoriteId, userId, ct.id⟩],
        nextFavoriteId := db.nextFavoriteId + 1 } ci.name = some ct := hec
    rw [hec1]
    exact addFavoriteForResolved_found _ ct userId _ hfind1
  · have hc0 : db.favorites.countP (fun f => f.userId == userId && f.cityId == ct.id) = 0 :=
      List.countP_eq_zero.mpr (fun f hf => List.find?_eq_none.mp hfav f hf)
    show (db.favorites ++ [FavoriteRow.mk db.nextFavoriteId userId ct.id]).countP
      (fun f => f.userId == userId && f.cityId == ct.id) = 1
    rw [List.countP_append, hc0]
    simp

/-- Witness for C2: favoriting Paris twice from a store that has the Paris
city row and no favorites. -/
theorem addToFavorites_duplicate_rejected_witness :
    ∃ db1 : DB,
      addToFavorites dbParis (some ⟨some "Paris", some 48, some 2⟩) 1 = (.ok (), db1) ∧
      addToFavorites db1 (some ⟨some "Paris", some 48, some 2⟩) 1 =
        (.error .alreadyFavorited, db1) ∧
      db1.favorites.countP (fun f => f.userId == 1 && f.cityId == parisCity.id) = 1 :=
  addToFavorites_duplicate_rejected dbParis ⟨some "Paris", some 48, some 2⟩ 1 "Paris"
    parisCity rfl rfl rfl rfl

/-! Claim C10. -/

/-- `find?` by user id followed by the password-stripping projection is
invariant under changing stored password hashes. -/
theorem find?_profile_congr (userId : Nat) :
    ∀ {l1 l2 : List UserRow}, List.Forall₂ samePublic l1 l2 →
      (l1.find? (fun u => u.id == userId)).map profileOf =
        (l2.find? (fun u => u.id == userId)).map profileOf := by
  intro l1 l2 h
  induction h with
  | nil => rfl
  | @cons a b t1 t2 hab htl ih =>
      obtain ⟨hid, hem, hco, hst, hci, hla, hlo⟩ := hab
      by_cases hc : (a.id == userId) = true
      · have hc2 : (b.id == userId) = true := by rw [← hid]; exact hc
        have e1 : (a :: t1).find? (fun u => u.id == userId) = some a :=
          List.find?_cons_of_pos _ hc
        have e2 : (b :: t2).find? (fun u => u.id == userId) = some b :=
          List.find?_cons_of_pos _ hc2
        rw [e1, e2]
        simp only [Option.map_some']
        have : profileOf a = profileOf b := by
          unfold profileOf
          rw [hid, hem, hco, hst, hci, hla, hlo]
        rw [this]
      · have hc2 : ¬(b.id == userId) = true := by rw [← hid]; exact hc
        have e1 : (a :: t1).find? (fun u => u.id == userId) =
            t1.find? (fun u => u.id == userId) :=
          List.find?_cons_of_neg _ hc
        have e2 : (b :: t2).find? (fun u => u.id == userId) =
            t2.find? (fun u => u.id == userId) :=
          List.find?_cons_of_neg _ hc2
        rw [e1, e2]
        exact ih

/-- Claim C10: `getUserProfile` returns the stored user row with the
password field removed, so results do not depend on stored password
hashes: stores whose user tables agree on everything but passwords give
equal profiles. -/
theorem getUserProfile_hides_password :
    (∀ (db : DB) (userId : Nat) (usr : UserRow),
        db.users.find? (fun u => u.id == userId) = some usr →
        getUserProfile db userId = .ok (profileOf usr)) ∧
    (∀ (db1 db2 : DB) (userId : Nat),
        List.Forall₂ samePublic db1.users db2.users →
        getUserProfile db1 userId = getUserProfile db2 userId) := by
  constructor
  · intro db userId usr h
    unfold getUserProfile
    rw [h]
  · intro db1 db2 userId h
    have hmap := find?_profile_congr userId h
    unfold getUserProfile
    cases h1 : db1.users.find? (fun u => u.id == userId) with
    | none =>
        cases h2 : db2.users.find? (fun u => u.id == userId) with
        | none => rfl
        | some b => rw [h1, h2] at hmap; simp at hmap
    | some a =>
        cases h2 : db2.users.find? (fun u => u.id == userId) with
        | none => rw [h1, h2] at hmap; simp at hmap
        | some b =>
            rw [h1, h2] at hmap
            simp only [Option.map_some'] at hmap
            simp only [Option.some.injEq] at hmap
            show Except.ok (profileOf a) = Except.ok (profileOf b)
            rw [hmap]

/-- Witness for C10: two stores differing only in the stored hash yield the
same profile, with the password gone. -/
theorem getUserProfile_hides_password_witness :
    getUserProfile dbNoCity 1 = .ok (profileOf sampleUser) ∧
    getUserProfile dbNoCity 1 = getUserProfile dbNoCityAltPw 1 :=
  ⟨getUserProfile_hides_password.1 dbNoCity 1 sampleUser rfl,
   getUserProfile_hides_password.2 dbNoCity dbNoCityAltPw 1
     (List.Forall₂.cons ⟨rfl, rfl, rfl, rfl, rfl, rfl, rfl⟩ List.Forall₂.nil)⟩

/-! Claim C8. -/

/-- Counterexample to C8 as stated: the descriptor names "Paris" but lacks
both coordinates, yet the call succeeds and inserts the favorite instead of
failing with the InvalidInput error. -/
theorem addToFavorites_missing_coords_not_rejected :
    addToFavoritesController dbParis (some "Paris") none none 1 =
      (.ok (), { dbParis with favorites := [⟨0, 1, 0⟩], nextFavoriteId := 1 }) := rfl

/-- Claim C8 amended: a missing user fails with UserNotFound (store
untouched); an entirely absent descriptor fails with the InvalidInput
error (`City information is required.`); and the HTTP layer rejects with
the same error only when name, latitude and longitude are all falsy.  A
descriptor with a name but missing coordinates (or vice versa) is not
validated further. -/
theorem addToFavorites_precondition_checks :
    (∀ (db : DB) (city : Option CityInput) (userId : Nat),
        db.users.find? (fun u => u.id == userId) = none →
        addToFavorites db city userId = (.error .userNotFound, db)) ∧
    (∀ (db : DB) (userId : Nat),
        (db.users.find? (fun u => u.id == userId)).isSome = true →
        addToFavorites db none userId = (.error .invalidInput, db)) ∧
    (∀ (db : DB) (name : Option String) (latitude longitude : Option Int) (userId : Nat),
        qFalsy name = true → numFalsy latitude = true → numFalsy longitude = true →
        addToFavoritesController db name latitude longitude userId =
          (.error .invalidInput, db)) := by
  refine ⟨?_, ?_, ?_⟩
  · intro db city userId h
    unfold addToFavorites
    rw [h]
  · intro db userId h
    obtain ⟨u, hu⟩ := Option.isSome_iff_exists.mp h
    unfold addToFavorites
    rw [hu]
  · intro db name la lo userId h1 h2 h3
    simp [addToFavoritesController, h1, h2, h3]

/-- Witness for C8 amended, at concrete inputs for each conjunct. -/
theorem addToFavorites_precondition_checks_witness :
    addToFavorites dbParis (some ⟨some "Paris", some 48, some 2⟩) 7 =
      (.error .userNotFound, dbParis) ∧
    addToFavorites dbParis none 1 = (.error .invalidInput, dbParis) ∧
    addToFavoritesController dbParis none none none 1 = (.error .invalidInput, dbParis) :=
  ⟨addToFavorites_precondition_checks.1 dbParis (some ⟨some "Paris", some 48, some 2⟩) 7 rfl,
   addToFavorites_precondition_checks.2.1 dbParis 1 rfl,
   addToFavorites_precondition_checks.2.2 dbParis none none none 1 rfl rfl rfl⟩

/-! Claim C5. -/

/-- Reduction of the name-query resolve step when a row matches. -/
theorem resolveCityForSearch_name_found
    (db : DB) (s : String) (resp : WeatherResponse) (ct : CityRow)
    (hs : s ≠ "") (h : db.cities.find? (fun c => c.name == s) = some ct) :
    resolveCityForSearch db ⟨some s, none, none⟩ resp = (ct.id, db) := by
  have hq : qFalsy (some s) = false := by
    simp [qFalsy, hs]
  unfold resolveCityForSearch
  rw [hq]
  show (match db.cities.find? (fun c => c.name == s) with
        | some city => (city.id, db)
        | none =>
            (db.nextCityId,
             { db with
                 cities := db.cities ++
                   [⟨db.nextCityId, resp.locName, resp.locLat, resp.locLon⟩],
                 nextCityId := db.nextCityId + 1 })) = (ct.id, db)
  rw [h]

/-- Reduction of the name-query resolve step when no row matches: the city
is created from the provider's canonical location. -/
theorem resolveCityForSearch_name_new
    (db : DB) (s : String) (resp : WeatherResponse)
    (hs : s ≠ "") (h : db.cities.find? (fun c => c.name == s) = none) :
    resolveCityForSearch db ⟨some s, none, none⟩ resp =
      (db.nextCityId,
       { db with
           cities := db.cities ++ [⟨db.nextCityId, resp.locName, resp.locLat, resp.locLon⟩],
           nextCityId := db.nextCityId + 1 }) := by
  have hq : qFalsy (some s) = false := by
    simp [qFalsy, hs]
  unfold resolveCityForSearch
  rw [hq]
  show (match db.cities.find? (fun c => c.name == s) with
        | some city => (city.id, db)
        | none =>
            (db.nextCityId,
             { db with
                 cities := db.cities ++
                   [⟨db.nextCityId, resp.locName, resp.locLat, resp.locLon⟩],
                 nextCityId := db.nextCityId + 1 })) =
    (db.nextCityId,
     { db with
         cities := db.cities ++ [⟨db.nextCityId, resp.locName, resp.locLat, resp.locLon⟩],
         nextCityId := db.nextCityId + 1 })
  rw [h]

/-- Counterexample to C5 as stated: with no matching row and a provider
whose canonical location name ("ParisFR") differs from the query string
("Paris"), the first resolve creates row id 0, and the second resolve does
not return the same identifier: it creates a second, duplicate row and
yields id 1. -/
theorem resolveCityForSearch_repeat_not_deterministic :
    (resolveCityForSearch dbNoCity ⟨some "Paris", none, none⟩ ⟨"ParisFR", 48, 2, 7⟩).1 = 0 ∧
    (resolveCityForSearch
        (resolveCityForSearch dbNoCity ⟨some "Paris", none, none⟩ ⟨"ParisFR", 48, 2, 7⟩).2
        ⟨some "Paris", none, none⟩ ⟨"ParisFR", 48, 2, 7⟩).1 = 1 ∧
    (resolveCityForSearch
        (resolveCityForSearch dbNoCity ⟨some "Paris", none, none⟩ ⟨"ParisFR", 48, 2, 7⟩).2
        ⟨some "Paris", none, none⟩ ⟨"ParisFR", 48, 2, 7⟩).2.cities =
      [⟨0, "ParisFR", 48, 2⟩, ⟨1, "ParisFR", 48, 2⟩] :=
  ⟨rfl, rfl, rfl⟩

/-- Claim C5 amended: when the provider's canonical location name equals
the queried name, the first resolve creates exactly one row and the second
resolve returns the same identifier and the unchanged directory. -/
theorem resolveCityForSearch_repeat_deterministic
    (db : DB) (s : String) (resp : WeatherResponse)
    (hs : s ≠ "")
    (hnone : db.cities.find? (fun c => c.name == s) = none)
    (hl : resp.locName = s) :
    ∃ (c1 : Nat) (db1 : DB),
      resolveCityForSearch db ⟨some s, none, none⟩ resp = (c1, db1) ∧
      db1.cities.length = db.cities.length + 1 ∧
      resolveCityForSearch db1 ⟨some s, none, none⟩ resp = (c1, db1) := by
  have hfind : (db.cities ++ [CityRow.mk db.nextCityId resp.locName resp.locLat resp.locLon]).find?
      (fun c => c.name == s) =
        some (CityRow.mk db.nextCityId resp.locName resp.locLat resp.locLon) := by
    rw [find?_append_left_none _ hnone]
    simp [hl]
  refine ⟨db.nextCityId, _, resolveCityForSearch_name_new db s resp hs hnone, ?_, ?_⟩
  · simp
  · exact resolveCityForSearch_name_found _ s resp
      (CityRow.mk db.nextCityId resp.locName resp.locLat resp.locLon) hs hfind

/-- Witness for the amended C5 at a concrete store and provider response. -/
theorem resolveCityForSearch_repeat_deterministic_witness :
    ∃ (c1 : Nat) (db1 : DB),
      resolveCityForSearch dbNoCity ⟨some "Kathmandu", none, none⟩ ktmResp = (c1, db1) ∧
      db1.cities.length = dbNoCity.cities.length + 1 ∧
      resolveCityForSearch db1 ⟨some "Kathmandu", none, none⟩ ktmResp = (c1, db1) :=
  resolveCityForSearch_repeat_deterministic dbNoCity "Kathmandu" ktmResp
    (by decide) rfl rfl

/-! Claim C3. -/

/-- Membership in the insertion step of the descending sort. -/
theorem mem_insertByTimestampDesc (x a : SearchRow) :
    ∀ l : List SearchRow, a ∈ insertByTimestampDesc x l ↔ a = x ∨ a ∈ l := by
  intro l
  induction l with
  | nil => simp [insertByTimestampDesc]
  | cons y ys ih =>
      unfold insertByTimestampDesc
      by_cases h : x.timestamp < y.timestamp
      · rw [if_pos h]
        simp only [List.mem_cons, ih]
        tauto
      · rw [if_neg h]
        exact List.mem_cons

/-- Inserting into a timestamp-descending list keeps it descending. -/
theorem pairwise_insertByTimestampDesc (x : SearchRow) :
    ∀ l : List SearchRow,
      l.Pairwise (fun a b => b.timestamp ≤ a.timestamp) →
      (insertByTimestampDesc x l).Pairwise (fun a b => b.timestamp ≤ a.timestamp) := by
  intro l
  induction l with
  | nil =>
      intro _
      simp [insertByTimestampDesc]
  | cons y ys ih =>
      intro hp
      rw [List.pairwise_cons] at hp
      obtain ⟨hy, hys⟩ := hp
      unfold insertByTimestampDesc
      by_cases h : x.timestamp < y.timestamp
      · rw [if_pos h]
        rw [List.pairwise_cons]
        refine ⟨?_, ih hys⟩
        intro b hb
        rcases (mem_insertByTimestampDesc x b ys).mp hb with rfl | hbys
        · exact le_of_lt h
        · exact hy b hbys
      · rw [if_neg h]
        have hxy : y.timestamp ≤ x.timestamp := le_of_not_lt h
        rw [List.pairwise_cons]
        refine ⟨?_, List.pairwise_cons.mpr ⟨hy, hys⟩⟩
        intro b hb
        rcases List.mem_cons.mp hb with rfl | hbys
        · exact hxy
        · exact le_trans (hy b hbys) hxy

/-- The descending sort is descending (non-strictly). -/
theorem pairwise_sortByTimestampDesc :
    ∀ l : List SearchRow,
      (sortByTimestampDesc l).Pairwise (fun a b => b.timestamp ≤ a.timestamp) := by
  intro l
  induction l with
  | nil => simp [sortByTimestampDesc]
  | cons x xs ih => exact pairwise_insertByTimestampDesc x _ ih

/-- The descending sort is a permutation in the membership sense. -/
theorem mem_sortByTimestampDesc (a : SearchRow) :
    ∀ l : List SearchRow, a ∈ sortByTimestampDesc l ↔ a ∈ l := by
  intro l
  induction l with
  | nil => simp [sortByTimestampDesc]
  | cons x xs ih =>
      unfold sortByTimestampDesc
      rw [mem_insertByTimestampDesc, ih, List.mem_cons]

/-- A successful `searchViews` join relates rows and view entries
pointwise. -/
theorem searchViews_forall₂ (db : DB) :
    ∀ (l : List SearchRow) (v : List RecentSearchView),
      searchViews db l = .ok v → List.Forall₂ (joinedWithCity db) l v := by
  intro l
  induction l with
  | nil =>
      intro v h
      unfold searchViews at h
      cases h
      exact List.Forall₂.nil
  | cons r rs ih =>
      intro v h
      unfold searchViews at h
      cases hc : db.cities.find? (fun c => c.id == r.cityId) with
      | none => rw [hc] at h; cases h
      | some ct =>
          rw [hc] at h
          cases hrec : searchViews db rs with
          | error e => rw [hrec] at h; cases h
          | ok rest =>
              rw [hrec] at h
              cases h
              exact List.Forall₂.cons ⟨rfl, rfl, ct, hc, rfl⟩ (ih rest hrec)

/-- Counterexample to C3 as stated: two searches of user 1 share the
timestamp 10; `getRecentSearches` returns both, so the result is not
ordered strictly descending by the stored timestamps. -/
theorem getRecentSearches_tie_not_strict :
    getRecentSearches dbTie 1 =
      .ok [⟨1, 1, ⟨"A", 10, 20⟩⟩, ⟨2, 2, ⟨"B", 30, 40⟩⟩] ∧
    (recentRows dbTie 1).map (fun r => r.timestamp) = [10, 10] ∧
    ¬ (recentRows dbTie 1).Pairwise (fun a b => b.timestamp < a.timestamp) :=
  ⟨rfl, rfl, by decide⟩

/-- Claim C3 amended: `getRecentSearches` returns at most 5 entries, drawn
from the user's `WeatherSearch` rows ordered descending (non-strictly:
equal timestamps are possible, ties keeping the stable sort order) by
timestamp, each joined with its city's name, latitude and longitude. -/
theorem getRecentSearches_bounded_sorted
    (db : DB) (userId : Nat) (rs : List RecentSearchView)
    (h : getRecentSearches db userId = .ok rs) :
    rs.length ≤ 5 ∧
    (recentRows db userId).Pairwise (fun a b => b.timestamp ≤ a.timestamp) ∧
    List.Forall₂ (joinedWithCity db) (recentRows db userId) rs ∧
    ∀ r ∈ recentRows db userId, r.userId = userId ∧ r ∈ db.searches := by
  have hf : List.Forall₂ (joinedWithCity db) (recentRows db userId) rs :=
    searchViews_forall₂ db (recentRows db userId) rs h
  refine ⟨?_, ?_, hf, ?_⟩
  · rw [← hf.length_eq]
    exact List.length_take_le 5 _
  · exact List.Pairwise.sublist (List.take_sublist 5 _) (pairwise_sortByTimestampDesc _)
  · intro r hr
    have hmem : r ∈ sortByTimestampDesc
        (db.searches.filter (fun x => x.userId == userId)) :=
      (List.take_sublist 5 _).subset hr
    have hfil : r ∈ db.searches.filter (fun x => x.userId == userId) :=
      (mem_sortByTimestampDesc r _).mp hmem
    obtain ⟨hmem2, hpred⟩ := List.mem_filter.mp hfil
    exact ⟨by simpa using hpred, hmem2⟩

/-- Witness for the amended C3 at a concrete store. -/
theorem getRecentSearches_bounded_sorted_witness :
    ([⟨1, 1, ⟨"A", 10, 20⟩⟩, ⟨2, 2, ⟨"B", 30, 40⟩⟩] : List RecentSearchView).length ≤ 5 ∧
    (recentRows dbTie 1).Pairwise (fun a b => b.timestamp ≤ a.timestamp) ∧
    List.Forall₂ (joinedWithCity dbTie) (recentRows dbTie 1)
      [⟨1, 1, ⟨"A", 10, 20⟩⟩, ⟨2, 2, ⟨"B", 30, 40⟩⟩] ∧
    ∀ r ∈ recentRows dbTie 1, r.userId = 1 ∧ r ∈ dbTie.searches :=
  getRecentSearches_bounded_sorted dbTie 1
    [⟨1, 1, ⟨"A", 10, 20⟩⟩, ⟨2, 2, ⟨"B", 30, 40⟩⟩] rfl

/-! Claim C7. -/

/-- A name query with non-empty name and provider failure yields the
ProviderError with one provider call and an untouched store. -/
theorem searchWeather_name_provider_fail
    (provider : Provider) (db : DB) (userId : Nat) (b : Bool) (now : Nat)
    (s : String) (hs : s ≠ "") (hp : provider s = none) :
    searchWeather provider db ⟨some s, none, none⟩ userId b now =
      (.error .providerError, db, [s]) := by
  have hq : qFalsy (some s) = false := by simp [qFalsy, hs]
  have hpq : providerQuery ⟨some s, none, none⟩ = s := by
    unfold providerQuery
    rw [hq]
    rfl
  unfold searchWeather
  rw [hq]
  show (match provider (providerQuery ⟨some s, none, none⟩) with
        | none =>
            ((.error .providerError : Except WErr WeatherResponse), db,
              [providerQuery ⟨some s, none, none⟩])
        | some resp =>
            if b then
              (.ok resp,
               recordSearchUpsert
                 (resolveCityForSearch db ⟨some s, none, none⟩ resp).2 userId
                 (resolveCityForSearch db ⟨some s, none, none⟩ resp).1 now,
               [providerQuery ⟨some s, none, none⟩])
            else (.ok resp, db, [providerQuery ⟨some s, none, none⟩])) = _
  rw [hpq, hp]

/-- A name query with non-empty name and provider success, without history
recording, returns the response with one provider call and an untouched
store. -/
theorem searchWeather_name_norecord_ok
    (provider : Provider) (db : DB) (userId : Nat) (now : Nat)
    (s : String) (resp : WeatherResponse)
    (hs : s ≠ "") (hp : provider s = some resp) :
    searchWeather provider db ⟨some s, none, none⟩ userId false now =
      (.ok resp, db, [s]) := by
  have hq : qFalsy (some s) = false := by simp [qFalsy, hs]
  have hpq : providerQuery ⟨some s, none, none⟩ = s := by
    unfold providerQuery
    rw [hq]
    rfl
  unfold searchWeather
  rw [hq]
  show (match provider (providerQuery ⟨some s, none, none⟩) with
        | none =>
            ((.error .providerError : Except WErr WeatherResponse), db,
              [providerQuery ⟨some s, none, none⟩])
        | some resp =>
            if false then
              (.ok resp,
               recordSearchUpsert
                 (resolveCityForSearch db ⟨some s, none, none⟩ resp).2 userId
                 (resolveCityForSearch db ⟨some s, none, none⟩ resp).1 now,
               [providerQuery ⟨some s, none, none⟩])
            else (.ok resp, db, [providerQuery ⟨some s, none, none⟩])) = _
  rw [hpq, hp]
  rfl

/-- A name query with non-empty name and provider success, with history
recording, resolves the city and upserts the search row. -/
theorem searchWeather_name_record_ok
    (provider : Provider) (db : DB) (userId : Nat) (now : Nat)
    (s : String) (resp : WeatherResponse)
    (hs : s ≠ "") (hp : provider s = some resp) :
    searchWeather provider db ⟨some s, none, none⟩ userId true now =
      (.ok resp,
       recordSearchUpsert (resolveCityForSearch db ⟨some s, none, none⟩ resp).2 userId
         (resolveCityForSearch db ⟨some s, none, none⟩ resp).1 now, [s]) := by
  have hq : qFalsy (some s) = false := by simp [qFalsy, hs]
  have hpq : providerQuery ⟨some s, none, none⟩ = s := by
    unfold providerQuery
    rw [hq]
    rfl
  unfold searchWeather
  rw [hq]
  show (match provider (providerQuery ⟨some s, none, none⟩) with
        | none =>
            ((.error .providerError : Except WErr WeatherResponse), db,
              [providerQuery ⟨some s, none, none⟩])
        | some resp =>
            if true then
              (.ok resp,
               recordSearchUpsert
                 (resolveCityForSearch db ⟨some s, none, none⟩ resp).2 userId
                 (resolveCityForSearch db ⟨some s, none, none⟩ resp).1 now,
               [providerQuery ⟨some s, none, none⟩])
            else (.ok resp, db, [providerQuery ⟨some s, none, none⟩])) = _
  rw [hpq, hp]
  rfl

/-- An empty-string name query (as the fan-out issues for a city whose
stored name is empty) fails the input check with no provider call. -/
theorem searchWeather_empty_name
    (provider : Provider) (db : DB) (userId : Nat) (b : Bool) (now : Nat) :
    searchWeather provider db ⟨some "", none, none⟩ userId b now =
      (.error .invalidInput, db, []) := rfl

/-- Unfolding of the fan-out loop at a non-empty head name the provider
answers. -/
theorem weatherFanOut_cons_ok
    (provider : Provider) (userId : Nat) (db : DB) (name : String)
    (rest : List String) (resp : WeatherResponse)
    (hne : name ≠ "") (hp : provider name = some resp) :
    weatherFanOut provider userId db (name :: rest) =
      match weatherFanOut provider userId db rest with
      | (.error e, db2, tr2) => (.error e, db2, name :: tr2)
      | (.ok ws, db2, tr2) => (.ok (resp :: ws), db2, name :: tr2) := by
  conv_lhs => unfold weatherFanOut
  rw [searchWeather_name_norecord_ok provider db userId 0 name resp hne hp]
  rfl

/-- The fan-out loop never changes the store. -/
theorem weatherFanOut_db (provider : Provider) (userId : Nat) :
    ∀ (l : List String) (db : DB), (weatherFanOut provider userId db l).2.1 = db := by
  intro l
  induction l with
  | nil => intro db; rfl
  | cons name rest ih =>
      intro db
      by_cases hname : name = ""
      · subst hname
        unfold weatherFanOut
        rw [searchWeather_empty_name provider db userId false 0]
      · cases hp : provider name with
        | none =>
            unfold weatherFanOut
            rw [searchWeather_name_provider_fail provider db userId false 0 name hname hp]
        | some resp =>
            rw [weatherFanOut_cons_ok provider userId db name rest resp hname hp]
            cases hR : weatherFanOut provider userId db rest with
            | mk r2 pr2 =>
                cases pr2 with
                | mk db2 tr2 =>
                    have hdb2 : db2 = db := by
                      have := ih db
                      rw [hR] at this
                      exact this
                    subst hdb2
                    cases r2 <;> rfl

/-- When every listed name is non-empty and answered by the provider, the
fan-out issues exactly one call per name, in order, and collects the
responses. -/
theorem weatherFanOut_ok (provider : Provider) (userId : Nat) :
    ∀ (l : List String) (db : DB),
      (∀ n ∈ l, n ≠ "" ∧ (provider n).isSome = true) →
      weatherFanOut provider userId db l = (.ok (l.filterMap provider), db, l) := by
  intro l
  induction l with
  | nil => intro db _; rfl
  | cons name rest ih =>
      intro db h
      have hhead := h name (List.mem_cons_self name rest)
      obtain ⟨hne, hsome⟩ := hhead
      obtain ⟨resp, hresp⟩ := Option.isSome_iff_exists.mp hsome
      have hrest : ∀ n ∈ rest, n ≠ "" ∧ (provider n).isSome = true :=
        fun n hn => h n (List.mem_cons_of_mem name hn)
      rw [weatherFanOut_cons_ok provider userId db name rest resp hne hresp]
      rw [ih db hrest]
      simp [List.filterMap_cons, hresp]

/-- If the provider fails for any listed name, the whole fan-out fails. -/
theorem weatherFanOut_fails (provider : Provider) (userId : Nat) :
    ∀ (l : List String) (db : DB),
      (∃ n ∈ l, provider n = none) →
      ∃ e, (weatherFanOut provider userId db l).1 = .error e := by
  intro l
  induction l with
  | nil =>
      intro db h
      obtain ⟨n, hn, _⟩ := h
      cases hn
  | cons name rest ih =>
      intro db h
      by_cases hname : name = ""
      · subst hname
        unfold weatherFanOut
        rw [searchWeather_empty_name provider db userId false 0]
        exact ⟨.invalidInput, rfl⟩
      · cases hp : provider name with
        | none =>
            unfold weatherFanOut
            rw [searchWeather_name_provider_fail provider db userId false 0 name hname hp]
            exact ⟨.providerError, rfl⟩
        | some resp =>
            rw [weatherFanOut_cons_ok provider userId db name rest resp hname hp]
            obtain ⟨n, hn, hpn⟩ := h
            have hn2 : n ∈ rest := by
              rcases List.mem_cons.mp hn with rfl | h2
              · rw [hp] at hpn; cases hpn
              · exact h2
            obtain ⟨e, he⟩ := ih db ⟨n, hn2, hpn⟩
            refine ⟨e, ?_⟩
            cases hR : weatherFanOut provider userId db rest with
            | mk r2 pr2 =>
                cases pr2 with
                | mk db2 tr2 =>
                    rw [hR] at he
                    simp only at he
                    subst he
                    rfl

/-- Claim C7: `getFavoriteCitiesWeather` and `getRecentSearchesWeather`
leave the store (in particular the WeatherSearch table) unchanged, issue
one provider call per listed city in listing order (when all calls are
answerable), and fail as a whole as soon as any provider call fails. -/
theorem fanOutWeather_frame_order_all_or_nothing
    (provider : Provider) (db : DB) (userId : Nat) :
    (getFavoriteCitiesWeather provider db userId).2.1 = db ∧
    (getRecentSearchesWeather provider db userId).2.1 = db ∧
    (∀ favs, getFavoriteCities db userId = .ok favs →
      ((∀ n ∈ favs.map (fun f => f.city.name), n ≠ "" ∧ (provider n).isSome = true) →
        getFavoriteCitiesWeather provider db userId =
          (.ok ((favs.map (fun f => f.city.name)).filterMap provider), db,
            favs.map (fun f => f.city.name))) ∧
      ((∃ n ∈ favs.map (fun f => f.city.name), provider n = none) →
        ∃ e, (getFavoriteCitiesWeather provider db userId).1 = .error e)) ∧
    (∀ recents, getRecentSearches db userId = .ok recents →
      ((∀ n ∈ recents.map (fun r => r.city.name), n ≠ "" ∧ (provider n).isSome = true) →
        getRecentSearchesWeather provider db userId =
          (.ok ((recents.map (fun r => r.city.name)).filterMap provider), db,
            recents.map (fun r => r.city.name))) ∧
      ((∃ n ∈ recents.map (fun r => r.city.name), provider n = none) →
        ∃ e, (getRecentSearchesWeather provider db userId).1 = .error e)) := by
  refine ⟨?_, ?_, ?_, ?_⟩
  · unfold getFavoriteCitiesWeather
    cases getFavoriteCities db userId with
    | error e => rfl
    | ok favs => exact weatherFanOut_db provider userId _ db
  · unfold getRecentSearchesWeather
    cases getRecentSearches db userId with
    | error e => rfl
    | ok recents => exact weatherFanOut_db provider userId _ db
  · intro favs hfavs
    constructor
    · intro hall
      unfold getFavoriteCitiesWeather
      rw [hfavs]
      exact weatherFanOut_ok provider userId _ db hall
    · intro hex
      unfold getFavoriteCitiesWeather
      rw [hfavs]
      exact weatherFanOut_fails provider userId _ db hex
  · intro recents hrecents
    constructor
    · intro hall
      unfold getRecentSearchesWeather
      rw [hrecents]
      exact weatherFanOut_ok provider userId _ db hall
    · intro hex
      unfold getRecentSearchesWeather
      rw [hrecents]
      exact weatherFanOut_fails provider userId _ db hex

/-- Witness for C7 at a concrete store with one favorite and one recent
search, and a provider answering that city. -/
theorem fanOutWeather_frame_order_all_or_nothing_witness :
    (getFavoriteCitiesWeather sampleProvider dbKtmFav 1).2.1 = dbKtmFav ∧
    getFavoriteCitiesWeather sampleProvider dbKtmFav 1 =
      (.ok [ktmResp], dbKtmFav, ["Kathmandu"]) ∧
    getRecentSearchesWeather sampleProvider dbKtmFav 1 =
      (.ok [ktmResp], dbKtmFav, ["Kathmandu"]) :=
  ⟨(fanOutWeather_frame_order_all_or_nothing sampleProvider dbKtmFav 1).1,
   ((fanOutWeather_frame_order_all_or_nothing sampleProvider dbKtmFav 1).2.2.1
      [⟨0, 0, ⟨"Kathmandu", 27, 85⟩⟩] rfl).1 (by decide),
   ((fanOutWeather_frame_order_all_or_nothing sampleProvider dbKtmFav 1).2.2.2
      [⟨0, 0, ⟨"Kathmandu", 27, 85⟩⟩] rfl).1 (by decide)⟩

/-! Claim C1. -/

/-- A successful `find?` gives a positive `countP`. -/
theorem countP_pos_of_find? {α : Type} {p : α → Bool} {l : List α} {a : α}
    (h : l.find? p = some a) : 0 < l.countP p :=
  List.countP_pos_iff.mpr ⟨a, List.mem_of_find?_eq_some h, List.find?_some h⟩

/-- The timestamp-updating map leaves the (userId, cityId) counts
unchanged. -/
theorem countP_pair_map_setTimestamp
    (l : List SearchRow) (tid now u c : Nat) :
    (l.map (fun r => if r.id == tid then { r with timestamp := now } else r)).countP
        (fun r => r.userId == u && r.cityId == c) =
      l.countP (fun r => r.userId == u && r.cityId == c) := by
  rw [List.countP_map]
  apply List.countP_congr
  intro r _
  by_cases h : (r.id == tid) = true
  · simp [Function.comp, h]
  · simp [Function.comp, h]

/-- The upsert's `searches` table in the update branch. -/
theorem recordSearchUpsert_searches_found
    (db : DB) (u c now : Nat) (existing : SearchRow)
    (h : db.searches.find? (fun r => r.userId == u && r.cityId == c) = some existing) :
    (recordSearchUpsert db u c now).searches =
      db.searches.map (fun r => if r.id == existing.id then { r with timestamp := now } else r) := by
  unfold recordSearchUpsert
  rw [h]

/-- The upsert's `searches` table in the insert branch. -/
theorem recordSearchUpsert_searches_new
    (db : DB) (u c now : Nat)
    (h : db.searches.find? (fun r => r.userId == u && r.cityId == c) = none) :
    (recordSearchUpsert db u c now).searches =
      db.searches ++ [⟨db.nextSearchId, u, c, now⟩] := by
  unfold recordSearchUpsert
  rw [h]

/-- The upsert never touches the City table. -/
theorem recordSearchUpsert_cities (db : DB) (u c now : Nat) :
    (recordSearchUpsert db u c now).cities = db.cities := by
  unfold recordSearchUpsert
  split <;> rfl

/-- The upsert never touches the city id counter. -/
theorem recordSearchUpsert_nextCityId (db : DB) (u c now : Nat) :
    (recordSearchUpsert db u c now).nextCityId = db.nextCityId := by
  unfold recordSearchUpsert
  split <;> rfl

/-- The name a resolve would yield is unchanged by the history upsert. -/
theorem resolvedCityId_upsert (db : DB) (u c now : Nat) (name : String) :
    resolvedCityId (recordSearchUpsert db u c now) name = resolvedCityId db name := by
  unfold resolvedCityId
  rw [recordSearchUpsert_cities, recordSearchUpsert_nextCityId]

/-- `resolvedCityId` when a row matches. -/
theorem resolvedCityId_found (db : DB) (name : String) (ct : CityRow)
    (h : db.cities.find? (fun c => c.name == name) = some ct) :
    resolvedCityId db name = ct.id := by
  unfold resolvedCityId
  rw [h]

/-- `resolvedCityId` when no row matches. -/
theorem resolvedCityId_new (db : DB) (name : String)
    (h : db.cities.find? (fun c => c.name == name) = none) :
    resolvedCityId db name = db.nextCityId := by
  unfold resolvedCityId
  rw [h]

/-- The history upsert preserves the at-most-one-row-per-pair bound, for
every pair. -/
theorem pairCount_upsert_le (db : DB) (u c now u₂ c₂ : Nat)
    (h : pairCount db u₂ c₂ ≤ 1) :
    pairCount (recordSearchUpsert db u c now) u₂ c₂ ≤ 1 := by
  unfold pairCount at h ⊢
  cases hE : db.searches.find? (fun r => r.userId == u && r.cityId == c) with
  | some existing =>
      rw [recordSearchUpsert_searches_found db u c now existing hE,
        countP_pair_map_setTimestamp]
      exact h
  | none =>
      rw [recordSearchUpsert_searches_new db u c now hE, List.countP_append]
      by_cases hp2 : u = u₂ ∧ c = c₂
      · obtain ⟨rfl, rfl⟩ := hp2
        have h0 : db.searches.countP (fun r => r.userId == u && r.cityId == c) = 0 :=
          List.countP_eq_zero.mpr (fun r hr => List.find?_eq_none.mp hE r hr)
        rw [h0]
        simp
      · have h1 : ([(⟨db.nextSearchId, u, c, now⟩ : SearchRow)] : List SearchRow).countP
            (fun r => r.userId == u₂ && r.cityId == c₂) = 0 := by
          simp only [List.countP_cons, List.countP_nil]
          have : ¬((u == u₂ && c == c₂) = true) := by
            simp only [Bool.and_eq_true, beq_iff_eq]
            exact hp2
          simp [this]
        rw [h1]
        omega

/-- After the upsert there is at least one row for the upserted pair. -/
theorem pairCount_upsert_pos (db : DB) (u c now : Nat) :
    1 ≤ pairCount (recordSearchUpsert db u c now) u c := by
  unfold pairCount
  cases hE : db.searches.find? (fun r => r.userId == u && r.cityId == c) with
  | some existing =>
      rw [recordSearchUpsert_searches_found db u c now existing hE,
        countP_pair_map_setTimestamp]
      exact countP_pos_of_find? hE
  | none =>
      rw [recordSearchUpsert_searches_new db u c now hE, List.countP_append]
      simp

/-- After the upsert, every row for the upserted pair carries the new
timestamp (assuming at most one row for the pair beforehand). -/
theorem pairCount_upsert_timestamp (db : DB) (u c now : Nat)
    (h : pairCount db u c ≤ 1) :
    ∀ r ∈ (recordSearchUpsert db u c now).searches,
      r.userId = u → r.cityId = c → r.timestamp = now := by
  unfold pairCount at h
  cases hE : db.searches.find? (fun r => r.userId == u && r.cityId == c) with
  | some existing =>
      intro r hr hru hrc
      rw [recordSearchUpsert_searches_found db u c now existing hE] at hr
      obtain ⟨r₀, hmem, heq⟩ := List.mem_map.mp hr
      subst heq
      by_cases hid : (r₀.id == existing.id) = true
      · rw [if_pos hid]
      · rw [if_neg hid] at hru hrc ⊢
        have hpred : (r₀.userId == u && r₀.cityId == c) = true := by
          simp [hru, hrc]
        have hexmem := List.mem_of_find?_eq_some hE
        have hexpred := List.find?_some hE
        have heq0 : r₀ = existing := eq_of_countP_le_one h hmem hexmem hpred hexpred
        rw [heq0] at hid
        simp at hid
  | none =>
      intro r hr hru hrc
      rw [recordSearchUpsert_searches_new db u c now hE] at hr
      rcases List.mem_append.mp hr with hl | hr1
      · exact absurd (by simp [hru, hrc]) (List.find?_eq_none.mp hE r hl)
      · have : r = (⟨db.nextSearchId, u, c, now⟩ : SearchRow) := by
          simpa using hr1
        rw [this]

/-- One history-recording search step: the store becomes an upsert of a
store with the same `searches` table, keyed on the stable resolved city id,
and the resolved id for the name is unchanged. -/
theorem searchWeather_record_step
    (provider : Provider) (db : DB) (u : Nat) (s : String)
    (resp : WeatherResponse) (now : Nat)
    (hs : s ≠ "") (hp : provider s = some resp) (hl : resp.locName = s) :
    ∃ db1 : DB,
      (searchWeather provider db ⟨some s, none, none⟩ u true now).2.1 =
        recordSearchUpsert db1 u (resolvedCityId db s) now ∧
      db1.searches = db.searches ∧
      resolvedCityId db1 s = resolvedCityId db s := by
  cases hE : db.cities.find? (fun c => c.name == s) with
  | some ct =>
      refine ⟨db, ?_, rfl, rfl⟩
      rw [searchWeather_name_record_ok provider db u now s resp hs hp]
      rw [resolveCityForSearch_name_found db s resp ct hs hE]
      rw [resolvedCityId_found db s ct hE]
  | none =>
      refine ⟨{ db with
                  cities := db.cities ++
                    [⟨db.nextCityId, resp.locName, resp.locLat, resp.locLon⟩],
                  nextCityId := db.nextCityId + 1 }, ?_, rfl, ?_⟩
      · rw [searchWeather_name_record_ok provider db u now s resp hs hp]
        rw [resolveCityForSearch_name_new db s resp hs hE]
        rw [resolvedCityId_new db s hE]
      · have hfind : (db.cities ++
            [CityRow.mk db.nextCityId resp.locName resp.locLat resp.locLon]).find?
              (fun c => c.name == s) =
            some (CityRow.mk db.nextCityId resp.locName resp.locLat resp.locLon) := by
          rw [find?_append_left_none _ hE]
          simp [hl]
        have h1 : resolvedCityId { db with
            cities := db.cities ++
              [⟨db.nextCityId, resp.locName, resp.locLat, resp.locLon⟩],
            nextCityId := db.nextCityId + 1 } s =
              (CityRow.mk db.nextCityId resp.locName resp.locLat resp.locLon).id :=
          resolvedCityId_found _ s _ hfind
        rw [h1, resolvedCityId_new db s hE]

/-- Invariant of the recorded-search sequence: counts stay at most one for
every pair, the resolved id for the name stays fixed, and after a
non-empty sequence the pair's unique row carries the last call's
timestamp. -/
theorem recordSequence_invariant
    (provider : Provider) (u : Nat) (s : String) (resp : WeatherResponse) (c : Nat)
    (hs : s ≠ "") (hp : provider s = some resp) (hl : resp.locName = s) :
    ∀ (ts : List Nat) (db : DB),
      (∀ u₂ c₂, pairCount db u₂ c₂ ≤ 1) → resolvedCityId db s = c →
      (∀ u₂ c₂, pairCount (recordSequence provider u s db ts) u₂ c₂ ≤ 1) ∧
      resolvedCityId (recordSequence provider u s db ts) s = c ∧
      (ts ≠ [] →
        pairCount (recordSequence provider u s db ts) u c = 1 ∧
        ∀ r ∈ (recordSequence provider u s db ts).searches,
          r.userId = u → r.cityId = c → r.timestamp = ts.getLastD 0) := by
  intro ts
  induction ts with
  | nil =>
      intro db hinv hres
      exact ⟨hinv, hres, fun hne => absurd rfl hne⟩
  | cons now rest ih =>
      intro db hinv hres
      obtain ⟨db1, hstep, hsearches, hresolved⟩ :=
        searchWeather_record_step provider db u s resp now hs hp hl
      rw [hres] at hstep
      have hPc1 : ∀ u₂ c₂, pairCount db1 u₂ c₂ = pairCount db u₂ c₂ := by
        intro u₂ c₂
        unfold pairCount
        rw [hsearches]
      have hinv1 : ∀ u₂ c₂, pairCount (recordSearchUpsert db1 u c now) u₂ c₂ ≤ 1 := by
        intro u₂ c₂
        exact pairCount_upsert_le db1 u c now u₂ c₂ (by rw [hPc1]; exact hinv u₂ c₂)
      have hres1 : resolvedCityId (recordSearchUpsert db1 u c now) s = c := by
        rw [resolvedCityId_upsert, hresolved, hres]
      have hseq : recordSequence provider u s db (now :: rest) =
          recordSequence provider u s (recordSearchUpsert db1 u c now) rest := by
        show recordSequence provider u s
          (searchWeather provider db ⟨some s, none, none⟩ u true now).2.1 rest = _
        rw [hstep]
      rw [hseq]
      obtain ⟨ha, hb, hc2⟩ := ih (recordSearchUpsert db1 u c now) hinv1 hres1
      rcases hrest : rest with _ | ⟨now2, rest2⟩
      · refine ⟨hinv1, hres1, fun _ => ⟨?_, ?_⟩⟩
        · show pairCount (recordSearchUpsert db1 u c now) u c = 1
          have hge := pairCount_upsert_pos db1 u c now
          have hle := hinv1 u c
          omega
        · intro r hr hru hrc
          exact pairCount_upsert_timestamp db1 u c now
            (by rw [hPc1]; exact hinv u c) r hr hru hrc
      · subst hrest
        refine ⟨ha, hb, fun _ => ?_⟩
        obtain ⟨hcount, hts⟩ := hc2 (by simp)
        refine ⟨hcount, ?_⟩
        intro r hr hru hrc
        have hlast := hts r hr hru hrc
        rw [hlast]
        simp [List.getLastD_cons]

/-- Claim C1: starting from a store whose WeatherSearch table has at most
one row per (userId, cityId) pair, any sequence of history-recording
searches for the same (stably resolving) city name keeps at most one row
for every pair, and afterwards the row for the searched pair carries the
timestamp of the most recent call. -/
theorem searchWeather_history_upsert
    (provider : Provider) (db : DB) (u : Nat) (s : String)
    (resp : WeatherResponse) (ts : List Nat)
    (hs : s ≠ "") (hp : provider s = some resp) (hl : resp.locName = s)
    (hinv : ∀ u₂ c₂, pairCount db u₂ c₂ ≤ 1) :
    (∀ u₂ c₂, pairCount (recordSequence provider u s db ts) u₂ c₂ ≤ 1) ∧
    (ts ≠ [] →
      pairCount (recordSequence provider u s db ts) u (resolvedCityId db s) = 1 ∧
      ∀ r ∈ (recordSequence provider u s db ts).searches,
        r.userId = u → r.cityId = resolvedCityId db s →
          r.timestamp = ts.getLastD 0) := by
  obtain ⟨h1, _, h3⟩ :=
    recordSequence_invariant provider u s resp (resolvedCityId db s) hs hp hl ts db hinv rfl
  exact ⟨h1, h3⟩

/-- Witness for C1: two searches for Kathmandu at times 5 and 7 leave
exactly one row for the pair. -/
theorem searchWeather_history_upsert_witness :
    pairCount (recordSequence sampleProvider 1 "Kathmandu" dbNoCity [5, 7]) 1
      (resolvedCityId dbNoCity "Kathmandu") = 1 :=
  ((searchWeather_history_upsert sampleProvider dbNoCity 1 "Kathmandu" ktmResp [5, 7]
      (by decide) rfl rfl (fun u₂ c₂ => by simp [pairCount, dbNoCity])).2
    (by decide)).1

end Weather
